import Mathlib

/-!
Shallow embedding of the request-orchestration core of `src/src/app/page.js`:
environment validation, the error classifier `handleApiError`, the timed
executor `fetchWithTimeout`, the three service adapters (`detectLanguage`,
`translateText`, `summarizeText`) and the conversation orchestrator
(`sendMessage`, the per-message summarize/translate click handlers, and the
target-language selector).

Modelling conventions:
  * JSON response bodies are a `Json` tree; JavaScript truthiness and
    optional chaining are modelled by `jsTruthy`, `Json.getField`,
    `Json.getIdx`.
  * The outside world's behaviour for one HTTP call is an explicit
    `FetchOutcome` argument: the fetch promise either resolves with a
    status and parsed body, or rejects with a JavaScript error value
    (an abort by the cancellation timer rejects with name "AbortError").
  * `navigator.onLine` is an explicit `onLine : Bool` argument.
  * React `setX` state updates become explicit state passing; every
    `setError` call during an operation is collected in order in a
    `List String` trace, and `applyTrace` gives the final error state.
  * Thrown JavaScript errors are `Except JsError`; `try`/`catch` is the
    `Except` case split.
-/

set_option linter.unusedVariables false

/-- A JSON value, as produced by `response.json()`. -/
inductive Json where
  | null : Json
  | bool : Bool → Json
  | num : Int → Json
  | str : String → Json
  | arr : List Json → Json
  | obj : List (String × Json) → Json

/-- JavaScript truthiness of a JSON value: `null`, `false`, `0` and the
empty string are falsy; arrays and objects are always truthy. -/
def jsTruthy : Json → Bool
  | Json.null => false
  | Json.bool b => b
  | Json.num n => n != 0
  | Json.str s => s != ""
  | Json.arr _ => true
  | Json.obj _ => true

/-- Property access `v?.key`: yields the field on an object, `undefined`
(here `none`) on everything else. -/
def Json.getField : Json → String → Option Json
  | Json.obj fields, key => (fields.find? (fun p => p.fst == key)).map (fun p => p.snd)
  | _, _ => none

/-- Index access `v?.[i]`: an element of an array, a one-character string of
a string, `undefined` otherwise. -/
def Json.getIdx : Json → Nat → Option Json
  | Json.arr elems, i => elems.get? i
  | Json.str s, i => (s.toList.get? i).map (fun c => Json.str (String.mk [c]))
  | _, _ => none

/-- JavaScript strict equality `v === lit` against a string literal: true
exactly when `v` is that string. -/
def jsStrictEqStr (v : Json) (lit : String) : Bool :=
  match v with
  | Json.str s => s == lit
  | _ => false

/-- A JavaScript error value as the classifier inspects it: its `name`, its
`message`, and an optional `response.status` (an axios-style field; errors
constructed with `new Error(...)` in this file never carry one). -/
structure JsError where
  name : String
  message : String
  response : Option Nat
deriving DecidableEq, Repr

/-- The two credentials read from `process.env` (page.js lines 10-13).
`none` models an unset variable. -/
structure Env where
  googleKey : Option String
  openaiKey : Option String

/-- Truthiness of an environment value: `undefined` and `""` are falsy
(the `!value` filter in page.js line 16). -/
def envVarTruthy : Option String → Bool
  | none => false
  | some s => s != ""

/-- page.js lines 9-22: collect the missing variable names in declaration
order and throw when any is missing. -/
def validateEnvVariables (env : Env) : Except JsError Unit :=
  let missingVars :=
    (if envVarTruthy env.googleKey then [] else ["NEXT_PUBLIC_GOOGLE_TRANSLATE_API_KEY"]) ++
    (if envVarTruthy env.openaiKey then [] else ["NEXT_PUBLIC_OPENAI_API_KEY"])
  if missingVars.length > 0 then
    Except.error
      { name := "Error"
        message := "Missing required environment variables: " ++ String.intercalate ", " missingVars
        response := none }
  else
    Except.ok ()

/-- `API_CONFIG.TIMEOUT` (page.js line 26). -/
def API_CONFIG_TIMEOUT : Nat := 5000

/-- page.js lines 38-66, `handleApiError(error, context)`. The `context`
argument is only logged. `navigator.onLine` is passed explicitly as
`onLine`; checked after the abort test and before the `error.response`
status switch, exactly as in the source. -/
def handleApiError (error : JsError) (context : String) (onLine : Bool) : String :=
  if error.name == "AbortError" then
    "Request timeout after " ++ toString API_CONFIG_TIMEOUT ++ "ms"
  else if !onLine then
    "No internet connection"
  else
    match error.response with
    | some status =>
        if status == 401 then "Invalid API key"
        else if status == 403 then "API quota exceeded"
        else if status == 429 then "Too many requests"
        else "Server error (" ++ toString status ++ ")"
    | none => "An unexpected error occurred"

/-- How one `fetch` promise settles: a response with a status and an
already-parsed JSON body, or a rejection carrying a JavaScript error (the
cancellation timer firing surfaces as a rejection named "AbortError"). -/
inductive FetchOutcome where
  | response : Nat → Json → FetchOutcome
  | reject : JsError → FetchOutcome

/-- `Response.ok`: status in the 200-299 range. -/
def responseOk (status : Nat) : Bool :=
  200 ≤ status && status ≤ 299

/-- The observable result of one `fetchWithTimeout` call: the value returned
or error thrown, every `setError` performed (in order), and whether
`clearTimeout` ran before the call finished. -/
structure FetchCall where
  result : Except JsError (Nat × Json)
  errorTrace : List String
  timerCleared : Bool

/-- page.js lines 68-92, `fetchWithTimeout`. The timer is armed before the
`try`; the success path clears it at line 79, the `catch` clears it at
line 87, classifies the caught error, stores the message with `setError`,
and rethrows `new Error(errorMessage)` — a fresh error with no `response`
field. `validateEnvVariables` runs inside the `try` before the fetch. -/
def fetchWithTimeout (env : Env) (onLine : Bool) (outcome : FetchOutcome) : FetchCall :=
  match validateEnvVariables env with
  | Except.error e =>
      let errorMessage := handleApiError e "fetchWithTimeout" onLine
      { result := Except.error { name := "Error", message := errorMessage, response := none }
        errorTrace := [errorMessage]
        timerCleared := true }
  | Except.ok _ =>
      match outcome with
      | FetchOutcome.reject e =>
          let errorMessage := handleApiError e "fetchWithTimeout" onLine
          { result := Except.error { name := "Error", message := errorMessage, response := none }
            errorTrace := [errorMessage]
            timerCleared := true }
      | FetchOutcome.response status body =>
          if responseOk status then
            { result := Except.ok (status, body)
              errorTrace := []
              timerCleared := true }
          else
            let httpError : JsError :=
              { name := "Error"
                message := "HTTP error! Status: " ++ toString status
                response := none }
            let errorMessage := handleApiError httpError "fetchWithTimeout" onLine
            { result := Except.error { name := "Error", message := errorMessage, response := none }
              errorTrace := [errorMessage]
              timerCleared := true }

/-- page.js line 103: `data?.data?.detections?.[0]?.[0]?.language`, guarded
by truthiness (`if (!...) throw`). -/
def detectParse (data : Json) : Option Json :=
  match (((data.getField "data").bind (fun d => d.getField "detections")).bind
      (fun d => d.getIdx 0)).bind (fun d => (d.getIdx 0).bind (fun e => e.getField "language")) with
  | some v => if jsTruthy v then some v else none
  | none => none

/-- page.js line 125: `data?.data?.translations?.[0]?.translatedText`,
guarded by truthiness. -/
def translateParse (data : Json) : Option Json :=
  match ((data.getField "data").bind (fun d => d.getField "translations")).bind
      (fun d => (d.getIdx 0).bind (fun e => e.getField "translatedText")) with
  | some v => if jsTruthy v then some v else none
  | none => none

/-- page.js line 154: `data?.choices?.[0]?.message?.content`, guarded by
truthiness. -/
def summarizeParse (data : Json) : Option Json :=
  match (data.getField "choices").bind
      (fun d => (d.getIdx 0).bind (fun e => (e.getField "message").bind
        (fun m => m.getField "content"))) with
  | some v => if jsTruthy v then some v else none
  | none => none

/-- page.js lines 94-113, `detectLanguage(text)`. The `text` argument only
shapes the request URL. Every failure is caught, classified, recorded with
`setError` and degraded to the sentinel `"unknown"`; the function never
throws. Returns the value together with the `setError` trace (the trace of
the inner `fetchWithTimeout` call followed by the adapter's own). -/
def detectLanguage (text : String) (env : Env) (onLine : Bool) (outcome : FetchOutcome) :
    Json × List String :=
  let fc := fetchWithTimeout env onLine outcome
  match fc.result with
  | Except.ok (_, body) =>
      match detectParse body with
      | some v => (v, fc.errorTrace)
      | none =>
          let formatError : JsError :=
            { name := "Error", message := "Invalid API response format", response := none }
          let errorMessage := handleApiError formatError "detectLanguage" onLine
          (Json.str "unknown", fc.errorTrace ++ [errorMessage])
  | Except.error e =>
      let errorMessage := handleApiError e "detectLanguage" onLine
      (Json.str "unknown", fc.errorTrace ++ [errorMessage])

/-- page.js lines 115-135, `translateText(text, targetLanguage)`; sentinel
`"Translation failed"`, otherwise as `detectLanguage`. -/
def translateText (text : String) (targetLanguage : String) (env : Env) (onLine : Bool)
    (outcome : FetchOutcome) : Json × List String :=
  let fc := fetchWithTimeout env onLine outcome
  match fc.result with
  | Except.ok (_, body) =>
      match translateParse body with
      | some v => (v, fc.errorTrace)
      | none =>
          let formatError : JsError :=
            { name := "Error", message := "Invalid API response format", response := none }
          let errorMessage := handleApiError formatError "translateText" onLine
          (Json.str "Translation failed", fc.errorTrace ++ [errorMessage])
  | Except.error e =>
      let errorMessage := handleApiError e "translateText" onLine
      (Json.str "Translation failed", fc.errorTrace ++ [errorMessage])

/-- page.js lines 137-164, `summarizeText(text)`; sentinel
`"Summarization failed"`, otherwise as `detectLanguage`. -/
def summarizeText (text : String) (env : Env) (onLine : Bool) (outcome : FetchOutcome) :
    Json × List String :=
  let fc := fetchWithTimeout env onLine outcome
  match fc.result with
  | Except.ok (_, body) =>
      match summarizeParse body with
      | some v => (v, fc.errorTrace)
      | none =>
          let formatError : JsError :=
            { name := "Error", message := "Invalid API response format", response := none }
          let errorMessage := handleApiError formatError "summarizeText" onLine
          (Json.str "Summarization failed", fc.errorTrace ++ [errorMessage])
  | Except.error e =>
      let errorMessage := handleApiError e "summarizeText" onLine
      (Json.str "Summarization failed", fc.errorTrace ++ [errorMessage])

/-- One chat entry as built by the orchestrator (page.js lines 201, 209-213,
244, 250, 281, 287). Fields that the source leaves `undefined` until some
handler sets them are `Option`s defaulting to `none`. -/
structure Message where
  text : String
  user : String
  language : Json
  canSummarize : Option Bool := none
  summary : Option Json := none
  summaryLoading : Option Bool := none
  translated : Option Json := none
  translationLoading : Option Bool := none

/-- The `Home` component's state hooks (page.js lines 170-173) together with
the shared `error` state of `useApiCall` (line 36). -/
structure HomeState where
  messages : List Message
  input : String
  selectedLanguage : String
  loading : Bool
  error : Option String

/-- JavaScript `Array.prototype.map` with the element index, starting the
index at `start`: models the `prev.map((msg, idx) => ...)` updates. -/
def jsMapFrom (f : Message → Nat → Message) : List Message → Nat → List Message
  | [], _ => []
  | m :: ms, start => f m start :: jsMapFrom f ms (start + 1)

/-- `prev.map((msg, idx) => ...)` with indices from 0. -/
def jsMap (f : Message → Nat → Message) (msgs : List Message) : List Message :=
  jsMapFrom f msgs 0

/-- The shared `error` state after a sequence of `setError` calls: the last
call wins, no call leaves it unchanged. -/
def applyTrace (error : Option String) (trace : List String) : Option String :=
  trace.foldl (fun _ m => some m) error

/-- JavaScript `String.prototype.trim`: strip leading and trailing
whitespace. Structurally recursive over the character list (Lean's
built-in `String.trim` computes the same string but is defined by
well-founded recursion on byte positions, which blocks evaluation inside
the kernel). -/
def jsTrim (s : String) : String :=
  String.mk (((s.data.dropWhile Char.isWhitespace).reverse.dropWhile Char.isWhitespace).reverse)

/-- The observable result of one `sendMessage` run: the final state, whether
`setLoading(true)` ran, whether the network was reached, and whether the
`catch` block at page.js line 216 was entered. -/
structure SendResult where
  state : HomeState
  loadingWasSet : Bool
  networkCalled : Bool
  threwConfigError : Bool

/-- page.js lines 194-226, `sendMessage`. Empty trimmed input returns before
anything happens. Otherwise `setLoading(true)` runs; inside the `try`,
`validateEnvVariables` runs BEFORE the new message is appended, so when it
throws, the `catch` block rewrites the language of whatever message is last
in the pre-existing transcript (`idx === prev.length - 1` over the
unchanged list) and the new message never exists. On the successful path,
the message is appended, the input cleared, detection awaited, and the
last entry of the grown list gets the detected language and
`canSummarize := detectedLang === "en" && input.length > 150`. The
`finally` clears the loading flag on both paths. -/
def sendMessage (s : HomeState) (env : Env) (onLine : Bool) (outcome : FetchOutcome) :
    SendResult :=
  if jsTrim s.input == "" then
    { state := s, loadingWasSet := false, networkCalled := false, threwConfigError := false }
  else
    match validateEnvVariables env with
    | Except.error _ =>
        let msgs := jsMap
          (fun msg idx =>
            if idx == s.messages.length - 1 then
              { msg with language := Json.str "Detection failed" }
            else msg)
          s.messages
        { state := { s with messages := msgs, loading := false }
          loadingWasSet := true, networkCalled := false, threwConfigError := true }
    | Except.ok _ =>
        let newMessage : Message := { text := s.input, user := "me", language := Json.str "Detecting..." }
        let msgs1 := s.messages ++ [newMessage]
        let dres := detectLanguage s.input env onLine outcome
        let detectedLang := dres.fst
        let msgs2 := jsMap
          (fun msg idx =>
            if idx == msgs1.length - 1 then
              { msg with
                  language := detectedLang
                  canSummarize := some (jsStrictEqStr detectedLang "en" && decide (s.input.length > 150)) }
            else msg)
          msgs1
        { state := { s with
                      messages := msgs2
                      input := ""
                      loading := false
                      error := applyTrace s.error dres.snd }
          loadingWasSet := true, networkCalled := true, threwConfigError := false }

/-- page.js lines 241-252, the Summarize button's click handler for the
message at `idx`: set `summaryLoading` on that entry, await
`summarizeText(msg.text)`, then store the summary and clear the flag. -/
def requestSummary (s : HomeState) (idx : Nat) (env : Env) (onLine : Bool)
    (outcome : FetchOutcome) : HomeState :=
  let msgText := ((s.messages.get? idx).map Message.text).getD ""
  let step1 := jsMap
    (fun m i => if i == idx then { m with summaryLoading := some true } else m) s.messages
  let sres := summarizeText msgText env onLine outcome
  let step2 := jsMap
    (fun m i =>
      if i == idx then { m with summary := some sres.fst, summaryLoading := some false } else m)
    step1
  { s with messages := step2, error := applyTrace s.error sres.snd }

/-- page.js lines 278-289, the Translate button's click handler for the
message at `idx`: set `translationLoading`, await
`translateText(msg.text, selectedLanguage)` with the selection captured at
invocation time, then store the translation and clear the flag. -/
def requestTranslation (s : HomeState) (idx : Nat) (env : Env) (onLine : Bool)
    (outcome : FetchOutcome) : HomeState :=
  let msgText := ((s.messages.get? idx).map Message.text).getD ""
  let step1 := jsMap
    (fun m i => if i == idx then { m with translationLoading := some true } else m) s.messages
  let tres := translateText msgText s.selectedLanguage env onLine outcome
  let step2 := jsMap
    (fun m i =>
      if i == idx then { m with translated := some tres.fst, translationLoading := some false } else m)
    step1
  { s with messages := step2, error := applyTrace s.error tres.snd }

/-- page.js line 261, the language selector's onChange: updates the
process-wide selection only. -/
def handleLanguageChange (s : HomeState) (code : String) : HomeState :=
  { s with selectedLanguage := code }

/-- page.js line 238: the Summarize button renders only under the guard
`msg.canSummarize && ...` — truthy exactly when the flag is `some true`. -/
def summarizeControlShown (m : Message) : Bool :=
  m.canSummarize.getD false

/-- page.js lines 276-292: the Translate button is rendered unconditionally
inside every message bubble — no guard on the message's state. -/
def translateControlShown (m : Message) : Bool :=
  true

/-- The spec's error taxonomy (spec section 4.3): the four kinds its
precedence table distinguishes. -/
inductive ErrKind where
  | timeoutErr : ErrKind
  | offlineErr : ErrKind
  | httpErr : Nat → ErrKind
  | otherErr : ErrKind

/-- Modelled from the spec: section 4.3's mapping table, read top to bottom
with first match winning. -/
def classify : ErrKind → String
  | ErrKind.timeoutErr => "Request timeout after " ++ toString API_CONFIG_TIMEOUT ++ "ms"
  | ErrKind.offlineErr => "No internet connection"
  | ErrKind.httpErr status =>
      if status == 401 then "Invalid API key"
      else if status == 403 then "API quota exceeded"
      else if status == 429 then "Too many requests"
      else "Server error (" ++ toString status ++ ")"
  | ErrKind.otherErr => "An unexpected error occurred"

/-- The kind of a concrete error value in a concrete connectivity state,
by the claim's first-match-wins precedence: an abort is a timeout; failing
that, no connectivity is offline; failing that, a carried response status
is an HTTP error; anything else is unknown. -/
def errKindOf (e : JsError) (onLine : Bool) : ErrKind :=
  if e.name == "AbortError" then ErrKind.timeoutErr
  else if !onLine then ErrKind.offlineErr
  else
    match e.response with
    | some status => ErrKind.httpErr status
    | none => ErrKind.otherErr

/-- An environment with both credentials present. -/
def envOk : Env :=
  { googleKey := some "google-key", openaiKey := some "openai-key" }

/-- An environment with both credentials absent. -/
def envMissing : Env :=
  { googleKey := none, openaiKey := none }

/-- An abort rejection, as produced when the cancellation timer fires and
`controller.abort()` cancels the in-flight fetch. -/
def abortError : JsError :=
  { name := "AbortError", message := "The operation was aborted.", response := none }

/-- A pre-existing, fully detected chat entry used in concrete scenarios. -/
def oldMsg : Message :=
  { text := "earlier text", user := "me", language := Json.str "en", canSummarize := some false }

/-- A message still awaiting detection, as `sendMessage` appends it. -/
def pendingMsg : Message :=
  { text := "bonjour", user := "me", language := Json.str "Detecting..." }

theorem getLast?_append_single {α : Type} (l : List α) (a : α) :
    (l ++ [a]).getLast? = some a := by
  induction l with
  | nil => rfl
  | cons x xs ih =>
      cases xs with
      | nil => rfl
      | cons y ys => simpa using ih

theorem jsMapFrom_get? (f : Message → Nat → Message) (ms : List Message) (k i : Nat) :
    (jsMapFrom f ms k).get? i = (ms.get? i).map (fun m => f m (k + i)) := by
  induction ms generalizing k i with
  | nil => simp [jsMapFrom]
  | cons m ms ih =>
      cases i with
      | zero => simp [jsMapFrom]
      | succ j =>
          simp only [jsMapFrom, List.get?_cons_succ, ih (k + 1) j, Nat.add_succ, Nat.succ_add]

theorem jsMap_get? (f : Message → Nat → Message) (ms : List Message) (i : Nat) :
    (jsMap f ms).get? i = (ms.get? i).map (fun m => f m i) := by
  simpa using jsMapFrom_get? f ms 0 i

theorem get?_append_left {α : Type} (l l2 : List α) (i : Nat) (h : i < l.length) :
    (l ++ l2).get? i = l.get? i := by
  induction l generalizing i with
  | nil => simp at h
  | cons x xs ih =>
      cases i with
      | zero => rfl
      | succ j =>
          simp only [List.cons_append, List.get?_cons_succ]
          exact ih j (by simpa using h)

theorem get?_append_length {α : Type} (l : List α) (a : α) :
    (l ++ [a]).get? l.length = some a := by
  induction l with
  | nil => rfl
  | cons x xs ih => simp [ih]

theorem jsStrictEqStr_eq_true (v : Json) (lit : String) :
    jsStrictEqStr v lit = true ↔ v = Json.str lit := by
  cases v <;> simp [jsStrictEqStr]

/-- A detection response body whose first candidate's language tag is "en". -/
def detBodyEn : Json :=
  Json.obj [("data", Json.obj [("detections",
    Json.arr [Json.arr [Json.obj [("language", Json.str "en")]]])])]

/-- A fresh conversation about to send "Hello". -/
def sendState0 : HomeState :=
  { messages := [], input := "Hello", selectedLanguage := "en", loading := false, error := none }

/-- A conversation holding one already-detected message, about to send "Hello". -/
def oldState : HomeState :=
  { messages := [oldMsg], input := "Hello", selectedLanguage := "en", loading := false, error := none }

/-- A conversation whose input buffer holds only whitespace. -/
def blankState : HomeState :=
  { messages := [], input := "   ", selectedLanguage := "en", loading := false, error := none }

/-- A conversation holding one message still awaiting detection. -/
def pendingState : HomeState :=
  { messages := [pendingMsg], input := "", selectedLanguage := "en", loading := false, error := none }

/-- C2: for every error value and connectivity state, `handleApiError`
returns exactly the message of the spec's precedence table (section 4.3),
first match winning: abort is a timeout, then offline, then the carried
HTTP status (401, 403, 429, other), then the unknown-error fallback. The
`classify` function is modelled from the spec's table and `errKindOf`
applies the claim's precedence to the concrete error value. -/
theorem C2_classifier_matches_spec_table (e : JsError) (c : String) (onLine : Bool) :
    handleApiError e c onLine = classify (errKindOf e onLine) := by
  cases hn : e.name == "AbortError" <;> cases onLine <;> cases hr : e.response <;>
    simp [handleApiError, classify, errKindOf, hn, hr]

/-- C3 counterexample: the classifier is NOT a function of the error kind
alone — the very same error value (an HttpError-shaped value with status
401) classifies differently in two environment states, because
`handleApiError` reads `navigator.onLine`: online it yields "Invalid API
key" (in the embedding: the status switch), offline "No internet
connection". This refutes the claim that any two invocations on the same
error kind, in any two environment states, return the same string. -/
theorem C3_env_dependence_counterexample :
    handleApiError { name := "Error", message := "x", response := some 401 } "ctx" true
      ≠ handleApiError { name := "Error", message := "x", response := some 401 } "ctx" false := by
  decide

/-- C3 (amended): the classifier is a pure, deterministic, total function of
the error value TOGETHER WITH the connectivity flag `navigator.onLine`: it
is independent of the `context` argument, and — when online — a non-abort
error carrying status 401 always yields "Invalid API key" and one carrying
status 418 always yields "Server error (418)". -/
theorem C3_classifier_deterministic (e : JsError) (c₁ c₂ : String) (o : Bool) :
    handleApiError e c₁ o = handleApiError e c₂ o
    ∧ (e.name ≠ "AbortError" → e.response = some 401 →
        handleApiError e c₁ true = "Invalid API key")
    ∧ (e.name ≠ "AbortError" → e.response = some 418 →
        handleApiError e c₁ true = "Server error (418)") := by
  refine ⟨rfl, ?_, ?_⟩ <;> intro hn hr
  · simp [handleApiError, hn, hr]
  · simp [handleApiError, hn, hr]
    decide

/-- C3 witness: the amended theorem applied at a concrete 401 error in the
online state, with both hypotheses discharged there. -/
theorem C3_classifier_deterministic_witness :
    handleApiError { name := "Error", message := "m", response := some 401 } "a" true
      = handleApiError { name := "Error", message := "m", response := some 401 } "b" true
    ∧ handleApiError { name := "Error", message := "m", response := some 401 } "a" true
      = "Invalid API key" :=
  ⟨(C3_classifier_deterministic { name := "Error", message := "m", response := some 401 }
      "a" "b" true).1,
   (C3_classifier_deterministic { name := "Error", message := "m", response := some 401 }
      "a" "b" true).2.1 (by decide) rfl⟩

/-- C4: with credentials present and the client online, a response received
with status 401 makes `fetchWithTimeout` throw — but the thrown value is
`new Error("HTTP error! Status: 401")`, which carries no `response` field,
so the classifier's status switch never fires: the message stored in the
shared error state is "An unexpected error occurred", not the claimed
"Invalid API key". This theorem evaluates the code at that failing
input. -/
theorem C4_http_status_never_reaches_classifier :
    (fetchWithTimeout envOk true (FetchOutcome.response 401 Json.null)).result
        = Except.error { name := "Error", message := "An unexpected error occurred", response := none }
    ∧ (fetchWithTimeout envOk true (FetchOutcome.response 401 Json.null)).errorTrace
        = ["An unexpected error occurred"]
    ∧ "Invalid API key" ∉ (fetchWithTimeout envOk true (FetchOutcome.response 401 Json.null)).errorTrace :=
  ⟨rfl, rfl, by decide⟩

/-- C7: when the cancellation timer fires first (the fetch rejects with an
AbortError), `fetchWithTimeout` does classify and record "Request timeout
after 5000ms" and no parse is attempted — but it rethrows
`new Error(errorMessage)`, and `detectLanguage`'s catch re-classifies that
wrapped error (name "Error", no `response` field) to "An unexpected error
occurred" and stores it afterwards, so the classification finally recorded
for the failure is NOT the timeout message. This theorem evaluates the
code at that failing input. -/
theorem C7_timeout_classification_overwritten :
    (detectLanguage "hello" envOk true (FetchOutcome.reject abortError)).fst = Json.str "unknown"
    ∧ (detectLanguage "hello" envOk true (FetchOutcome.reject abortError)).snd
        = ["Request timeout after 5000ms", "An unexpected error occurred"]
    ∧ applyTrace none (detectLanguage "hello" envOk true (FetchOutcome.reject abortError)).snd
        = some "An unexpected error occurred" :=
  ⟨rfl, rfl, rfl⟩

/-- C8: on every exit path of `fetchWithTimeout` — configuration failure
before the fetch, rejection (including the abort), non-success status, or
success — the cancellation timer armed at page.js line 70 has been cleared
(line 79 on the success path, line 87 in the catch) by the time the call
returns or throws. -/
theorem C8_timer_always_cleared (env : Env) (onLine : Bool) (outcome : FetchOutcome) :
    (fetchWithTimeout env onLine outcome).timerCleared = true := by
  unfold fetchWithTimeout
  cases validateEnvVariables env with
  | error e => rfl
  | ok u =>
      cases outcome with
      | reject e => rfl
      | response status body =>
          dsimp only
          split <;> rfl

/-- C9: when the trimmed input is empty, `sendMessage` is a no-op: the state
(transcript, input buffer, loading flag, error state) is returned
unchanged, `setLoading(true)` never runs, and the network is never
reached. -/
theorem C9_send_noop_on_blank_input (s : HomeState) (env : Env) (onLine : Bool)
    (outcome : FetchOutcome) (h : jsTrim s.input = "") :
    sendMessage s env onLine outcome =
      { state := s, loadingWasSet := false, networkCalled := false, threwConfigError := false } := by
  unfold sendMessage
  simp [h]

/-- C9 witness: the theorem applied to a whitespace-only input. -/
theorem C9_send_noop_witness :
    jsTrim "   " = ""
    ∧ sendMessage blankState envOk true (FetchOutcome.response 200 Json.null)
      = { state := blankState, loadingWasSet := false, networkCalled := false,
          threwConfigError := false } :=
  ⟨by decide,
   C9_send_noop_on_blank_input blankState envOk true (FetchOutcome.response 200 Json.null)
     (by decide)⟩

/-- C1: with both credentials absent, a send attempt on non-empty input does
throw the configuration error before any network call and does leave the
loading flag false — but because `validateEnvVariables` runs before the
new message is appended, the message of this send never exists: on an
empty transcript nothing at all is marked "Detection failed", and on a
non-empty transcript the catch block rewrites the language of the
PREVIOUS last message instead of the affected one. This theorem evaluates
the code at both failing inputs. -/
theorem C1_config_failure_marks_wrong_message :
    (sendMessage sendState0 envMissing true (FetchOutcome.response 200 Json.null)).threwConfigError
        = true
    ∧ (sendMessage sendState0 envMissing true (FetchOutcome.response 200 Json.null)).networkCalled
        = false
    ∧ (sendMessage sendState0 envMissing true (FetchOutcome.response 200 Json.null)).state.loading
        = false
    ∧ (sendMessage sendState0 envMissing true (FetchOutcome.response 200 Json.null)).state.messages
        = []
    ∧ (sendMessage oldState envMissing true (FetchOutcome.response 200 Json.null)).state.messages
        = [{ oldMsg with language := Json.str "Detection failed" }] :=
  ⟨rfl, rfl, rfl, rfl, rfl⟩

/-- C5: the three adapters never raise to their caller (each is a total
function into a value plus an error trace): for every input and every
outcome, either the underlying call succeeded and the response parsed, and
the parsed value is returned — or the adapter returns its sentinel
("unknown" / "Translation failed" / "Summarization failed") and the last
`setError` performed during the call recorded the classifier's message for
some caught error. -/
theorem C5_adapters_absorb_failures (text target : String) (env : Env) (onLine : Bool)
    (outcome : FetchOutcome) :
    ((∃ st body v, (fetchWithTimeout env onLine outcome).result = Except.ok (st, body)
        ∧ detectParse body = some v
        ∧ (detectLanguage text env onLine outcome).fst = v)
      ∨ ((detectLanguage text env onLine outcome).fst = Json.str "unknown"
        ∧ ∃ e, ((detectLanguage text env onLine outcome).snd).getLast?
            = some (handleApiError e "detectLanguage" onLine)))
    ∧ ((∃ st body v, (fetchWithTimeout env onLine outcome).result = Except.ok (st, body)
        ∧ translateParse body = some v
        ∧ (translateText text target env onLine outcome).fst = v)
      ∨ ((translateText text target env onLine outcome).fst = Json.str "Translation failed"
        ∧ ∃ e, ((translateText text target env onLine outcome).snd).getLast?
            = some (handleApiError e "translateText" onLine)))
    ∧ ((∃ st body v, (fetchWithTimeout env onLine outcome).result = Except.ok (st, body)
        ∧ summarizeParse body = some v
        ∧ (summarizeText text env onLine outcome).fst = v)
      ∨ ((summarizeText text env onLine outcome).fst = Json.str "Summarization failed"
        ∧ ∃ e, ((summarizeText text env onLine outcome).snd).getLast?
            = some (handleApiError e "summarizeText" onLine))) := by
  refine ⟨?_, ?_, ?_⟩
  · cases hr : (fetchWithTimeout env onLine outcome).result with
    | ok p =>
        obtain ⟨st, body⟩ := p
        cases hp : detectParse body with
        | some v =>
            exact Or.inl ⟨st, body, v, rfl, hp, by simp [detectLanguage, hr, hp]⟩
        | none =>
            refine Or.inr ⟨by simp [detectLanguage, hr, hp], ?_⟩
            exact ⟨{ name := "Error", message := "Invalid API response format", response := none },
              by simp [detectLanguage, hr, hp, getLast?_append_single]⟩
    | error e =>
        refine Or.inr ⟨by simp [detectLanguage, hr], ?_⟩
        exact ⟨e, by simp [detectLanguage, hr, getLast?_append_single]⟩
  · cases hr : (fetchWithTimeout env onLine outcome).result with
    | ok p =>
        obtain ⟨st, body⟩ := p
        cases hp : translateParse body with
        | some v =>
            exact Or.inl ⟨st, body, v, rfl, hp, by simp [translateText, hr, hp]⟩
        | none =>
            refine Or.inr ⟨by simp [translateText, hr, hp], ?_⟩
            exact ⟨{ name := "Error", message := "Invalid API response format", response := none },
              by simp [translateText, hr, hp, getLast?_append_single]⟩
    | error e =>
        refine Or.inr ⟨by simp [translateText, hr], ?_⟩
        exact ⟨e, by simp [translateText, hr, getLast?_append_single]⟩
  · cases hr : (fetchWithTimeout env onLine outcome).result with
    | ok p =>
        obtain ⟨st, body⟩ := p
        cases hp : summarizeParse body with
        | some v =>
            exact Or.inl ⟨st, body, v, rfl, hp, by simp [summarizeText, hr, hp]⟩
        | none =>
            refine Or.inr ⟨by simp [summarizeText, hr, hp], ?_⟩
            exact ⟨{ name := "Error", message := "Invalid API response format", response := none },
              by simp [summarizeText, hr, hp, getLast?_append_single]⟩
    | error e =>
        refine Or.inr ⟨by simp [summarizeText, hr], ?_⟩
        exact ⟨e, by simp [summarizeText, hr, getLast?_append_single]⟩

/-- C6: on the successful send path, the appended message (at the old
length's index) gets `canSummarize` computed exactly as
`detectedLang === "en" && input.length > 150`, so the flag is `some true`
iff the stored language is "en" and the text is longer than 150; and no
later operation recomputes it: this send and any later send leave every
pre-existing message's flag unchanged, and the summarize handler, the
translate handler and the language selector never touch it. -/
theorem C6_summarizable_computed_once (s : HomeState) (env : Env) (onLine : Bool)
    (outcome : FetchOutcome) (hne : ¬ jsTrim s.input = "")
    (hok : validateEnvVariables env = Except.ok ()) :
    (∃ m, (sendMessage s env onLine outcome).state.messages.get? s.messages.length = some m
      ∧ m.text = s.input
      ∧ m.canSummarize = some (jsStrictEqStr m.language "en" && decide (m.text.length > 150))
      ∧ (m.canSummarize = some true ↔ (m.language = Json.str "en" ∧ m.text.length > 150)))
    ∧ (∀ (env2 : Env) (onLine2 : Bool) (outcome2 : FetchOutcome) (i : Nat),
        i < s.messages.length →
        ((sendMessage s env2 onLine2 outcome2).state.messages.get? i).map Message.canSummarize
          = (s.messages.get? i).map Message.canSummarize)
    ∧ (∀ (idx i : Nat) (env2 : Env) (onLine2 : Bool) (outcome2 : FetchOutcome),
        ((requestSummary s idx env2 onLine2 outcome2).messages.get? i).map Message.canSummarize
          = (s.messages.get? i).map Message.canSummarize)
    ∧ (∀ (idx i : Nat) (env2 : Env) (onLine2 : Bool) (outcome2 : FetchOutcome),
        ((requestTranslation s idx env2 onLine2 outcome2).messages.get? i).map Message.canSummarize
          = (s.messages.get? i).map Message.canSummarize)
    ∧ (∀ code, (handleLanguageChange s code).messages = s.messages) := by
  have hguard : (jsTrim s.input == "") = false := by simp [hne]
  refine ⟨?_, ?_, ?_, ?_, fun code => rfl⟩
  · simp only [sendMessage, hguard, Bool.false_eq_true, if_false, hok]
    simp only [jsMap_get?, get?_append_length, List.length_append, List.length_cons,
      List.length_nil, Nat.zero_add, Nat.add_sub_cancel, beq_self_eq_true, if_true, Option.map_some']
    exact ⟨_, rfl, rfl, rfl, by simp [jsStrictEqStr_eq_true]⟩
  · intro env2 onLine2 outcome2 i hi
    simp only [sendMessage, hguard, Bool.false_eq_true, if_false]
    cases hv : validateEnvVariables env2 with
    | error e =>
        simp only [jsMap_get?]
        cases hm2 : s.messages.get? i with
        | none => simp
        | some m =>
            simp only [Option.map_some']
            congr 1
            split <;> rfl
    | ok u =>
        simp only [jsMap_get?, get?_append_left s.messages _ i hi, List.length_append,
          List.length_cons, List.length_nil, Nat.zero_add, Nat.add_sub_cancel]
        have hne2 : (i == s.messages.length) = false := by
          simp [Nat.ne_of_lt hi]
        cases hm2 : s.messages.get? i with
        | none => simp
        | some m =>
            simp only [Option.map_some', hne2, Bool.false_eq_true, if_false]
  · intro idx i env2 onLine2 outcome2
    simp only [requestSummary, jsMap_get?]
    cases hm2 : s.messages.get? i with
    | none => simp
    | some m =>
        simp only [Option.map_some']
        congr 1
        split <;> rfl
  · intro idx i env2 onLine2 outcome2
    simp only [requestTranslation, jsMap_get?]
    cases hm2 : s.messages.get? i with
    | none => simp
    | some m =>
        simp only [Option.map_some']
        congr 1
        split <;> rfl

/-- C6 witness: the theorem applied to a fresh conversation sending "Hello"
with a successful English detection, hypotheses discharged concretely. -/
theorem C6_summarizable_computed_once_witness :
    ¬ jsTrim "Hello" = ""
    ∧ validateEnvVariables envOk = Except.ok ()
    ∧ ∃ m, (sendMessage sendState0 envOk true
          (FetchOutcome.response 200 detBodyEn)).state.messages.get? 0 = some m
        ∧ m.text = "Hello"
        ∧ m.canSummarize = some (jsStrictEqStr m.language "en" && decide (m.text.length > 150))
        ∧ (m.canSummarize = some true ↔ (m.language = Json.str "en" ∧ m.text.length > 150)) :=
  ⟨by decide, rfl,
   (C6_summarizable_computed_once sendState0 envOk true (FetchOutcome.response 200 detBodyEn)
      (by decide) rfl).1⟩

/-- C10: the Translate control is offered for every message with no
precondition on its detection state, and the translate handler stores the
adapter's result in the message's `translated` field (clearing the
in-flight flag); only the Summarize control is gated, shown exactly when
the message's `canSummarize` flag is `some true`. -/
theorem C10_translate_ungated_summarize_gated (s : HomeState) (idx : Nat) (env : Env)
    (onLine : Bool) (outcome : FetchOutcome) (m : Message)
    (hm : s.messages.get? idx = some m) :
    translateControlShown m = true
    ∧ (requestTranslation s idx env onLine outcome).messages.get? idx
        = some { m with
                   translated := some (translateText m.text s.selectedLanguage env onLine outcome).fst
                   translationLoading := some false }
    ∧ (∀ m2 : Message, summarizeControlShown m2 = true ↔ m2.canSummarize = some true) := by
  refine ⟨rfl, ?_, ?_⟩
  · simp only [requestTranslation, jsMap_get?, hm, Option.map_some', beq_self_eq_true, if_true,
      Option.getD_some]
  · intro m2
    cases h2 : m2.canSummarize with
    | none => simp [summarizeControlShown, h2]
    | some b => cases b <;> simp [summarizeControlShown, h2]

/-- C10 witness: the theorem applied to a message whose language is still
"Detecting...", with the index hypothesis discharged concretely. -/
theorem C10_translate_ungated_summarize_gated_witness :
    translateControlShown pendingMsg = true
    ∧ (requestTranslation pendingState 0 envOk true
          (FetchOutcome.response 200 Json.null)).messages.get? 0
        = some { pendingMsg with
                   translated := some (translateText pendingMsg.text "en" envOk true
                     (FetchOutcome.response 200 Json.null)).fst
                   translationLoading := some false }
    ∧ (∀ m2 : Message, summarizeControlShown m2 = true ↔ m2.canSummarize = some true) :=
  C10_translate_ungated_summarize_gated pendingState 0 envOk true
    (FetchOutcome.response 200 Json.null) pendingMsg rfl
